import Mathlib

/-!
Shallow embedding of the `alx-backend-graphql_crm` CRM backend
(`crm/schema.py` and the schema registration it performs), together with
proofs checking the natural-language specification against it.

Modelling conventions:
* the Django ORM entity store is an explicit `Store` value (lists of
  records plus fresh-id counters) threaded through every mutation;
* `Decimal` prices and amounts are modelled as integers (a fixed-point
  scale such as cents); sums and comparisons are unchanged by this;
* dates/datetimes are modelled as natural numbers;
* Python truthiness of optional GraphQL inputs is modelled explicitly
  (absent, empty-string and zero values deactivate a filter exactly as
  `if filters.x:` does in the source);
* Django `ValidationError(msg)` stringifies as `['msg']`, which the
  mutation error handlers inspect via lowercase substring tests; this is
  reproduced literally.
-/

namespace Crm

/-! ## String helpers (Python `in`, `str.lower`, formatting) -/

/-- The single-quote character as a string (used by Python `repr` inside
`str(ValidationError(...))` and by f-string messages). -/
def sq : String := (Char.ofNat 39).toString

/-- Embeds `strHasSub hay needle`: `needle` occurs as a contiguous substring of
`hay` (Python's `needle in hay` on the underlying characters). -/
def strHasSub : List Char → List Char → Bool
  | [], needle => needle.isEmpty
  | hay@(_ :: t), needle => needle.isPrefixOf hay || strHasSub t needle

/-- ASCII lowercasing of one character (`str.lower` on the ASCII
messages involved here). -/
def lowerChar (c : Char) : Char :=
  if c.isUpper then Char.ofNat (c.toNat + 32) else c

/-- Python `needle in hay.lower()` for a lowercase `needle`. -/
def containsLower (hay needle : String) : Bool :=
  strHasSub (hay.data.map lowerChar) (needle.data.map lowerChar)

/-- Embeds `str(ValidationError(msg))` in Django: the message list rendering. -/
def pyErrStr (msg : String) : String := "[" ++ sq ++ msg ++ sq ++ "]"

/-- Embeds `", ".join(xs)`. -/
def joinComma : List String → String
  | [] => ""
  | [x] => x
  | x :: xs => x ++ ", " ++ joinComma xs

/-- Split a character list at the first occurrence of `ch`:
`splitFirst ch cs = some (before, after)` with
`cs = before ++ [ch] ++ after` and `ch ∉ before`. -/
def splitFirst (ch : Char) : List Char → Option (List Char × List Char)
  | [] => none
  | c :: t =>
    if c = ch then some ([], t)
    else
      match splitFirst ch t with
      | some (a, b) => some (c :: a, b)
      | none => none

/-- Split a character list at the last occurrence of `ch`. -/
def splitLast (ch : Char) (cs : List Char) : Option (List Char × List Char) :=
  match splitFirst ch cs.reverse with
  | some (a, b) => some (b.reverse, a.reverse)
  | none => none

/-! ## Validation layer (`ValidationMethod` in `crm/schema.py`) -/

/-- Characters allowed in the local part of the email regex
`[a-zA-Z0-9._%+-]`. -/
def localChar (c : Char) : Bool :=
  c.isAlpha || c.isDigit || c = '.' || c = '_' || c = '%' || c = '+' || c = '-'

/-- Characters allowed in the domain part of the email regex
`[a-zA-Z0-9.-]`. -/
def domainChar (c : Char) : Bool :=
  c.isAlpha || c.isDigit || c = '.' || c = '-'

/-- Embeds `re.match(r'^[a-zA-Z0-9._%+-]+@[a-zA-Z0-9.-]+\.[a-zA-Z]\x7b2,\x7d$', email)`:
a non-empty local part, an `@`, a non-empty domain, a dot, and a TLD of at
least two letters.  Since no character class admits `@`, the matched `@` is
the first one, and since the TLD is letters-only, the matched dot is the
last one. -/
def emailFormatOk (email : String) : Bool :=
  match splitFirst '@' email.data with
  | none => false
  | some (lpart, rest) =>
    !lpart.isEmpty && lpart.all localChar &&
      match splitLast '.' rest with
      | none => false
      | some (dom, tld) =>
        !dom.isEmpty && dom.all domainChar && decide (2 ≤ tld.length) &&
          tld.all Char.isAlpha

/-- The dashed alternative `\d\x7b3\x7d-\d\x7b3\x7d-\d\x7b4\x7d` of the phone regex. -/
def phoneDashedOk (cs : List Char) : Bool :=
  match cs with
  | [a, b, c, d1, d, e, f, d2, g, h, i, j] =>
    d1 = '-' && d2 = '-' && [a, b, c, d, e, f, g, h, i, j].all Char.isDigit
  | _ => false

/-- Embeds `re.match(r'^(\+\d\x7b10,15\x7d|\d\x7b3\x7d-\d\x7b3\x7d-\d\x7b4\x7d)$', phone)`. -/
def phoneFormatOk (phone : String) : Bool :=
  (match phone.data with
   | '+' :: ds => decide (10 ≤ ds.length) && decide (ds.length ≤ 15) && ds.all Char.isDigit
   | _ => false)
  || phoneDashedOk phone.data

/-! ## Data model (the Django models, as used by `crm/schema.py`) -/

structure Customer where
  id : Nat
  name : String
  email : String
  phone : Option String := none
  created_at : Nat := 0
  updated_at : Nat := 0
deriving DecidableEq, Repr

structure Product where
  id : Nat
  name : String
  price : Int
  stock : Int
  created_at : Nat := 0
  updated_at : Nat := 0
deriving DecidableEq, Repr

structure Order where
  id : Nat
  customer_id : Nat
  order_date : Option Nat := none
  status : String := "pending"
  total_amount : Int
  created_at : Nat := 0
deriving DecidableEq, Repr

/-- The implicit order-item association row linking an order to one of its
products (`order.items` in the source). -/
structure OrderItem where
  order_id : Nat
  product_id : Nat
deriving DecidableEq, Repr

/-- The durable entity store, with fresh-id counters standing in for the
database's autoincrement primary keys. -/
structure Store where
  customers : List Customer := []
  products : List Product := []
  orders : List Order := []
  order_items : List OrderItem := []
  next_customer_id : Nat := 1
  next_product_id : Nat := 1
  next_order_id : Nat := 1
deriving DecidableEq, Repr

/-- All customer emails currently in the store. -/
def storeEmails (s : Store) : List String := s.customers.map (fun c => c.email)

/-- Global uniqueness of `Customer.email` (spec §3 invariant). -/
def emailsUnique (s : Store) : Prop := (storeEmails s).Nodup

instance (s : Store) : Decidable (emailsUnique s) := by
  unfold emailsUnique; infer_instance

/-- Embeds `ValidationMethod.validate_email`: format check, then uniqueness check
against the store; returns the `ValidationError` message on failure. -/
def validate_email (s : Store) (email : String) : Option String :=
  if !emailFormatOk email then
    some "Please enter a valid email address."
  else if s.customers.any (fun c => c.email = email) then
    some "A customer with this email already exists."
  else
    none

/-- Embeds `ValidationMethod.validate_phone`: no-op when the phone is absent or
empty (Python truthiness), format check otherwise. -/
def validate_phone : Option String → Option String
  | none => none
  | some p =>
    if p = "" then none
    else if phoneFormatOk p then none
    else some "Phone number must be in format: +1234567890 or 123-456-7890"

/-- Embeds `ValidationMethod.validate_price`. -/
def validate_price (price : Int) : Option String :=
  if price ≤ 0 then some "Price must be a positive number." else none

/-- Embeds `ValidationMethod.validate_stock`. -/
def validate_stock (stock : Int) : Option String :=
  if stock < 0 then some "Stock cannot be negative" else none

/-! ## Mutation layer (`crm/schema.py`, mutation classes) -/

/-- Embeds `CreateCustomerInput`. -/
structure CreateCustomerInput where
  name : String
  email : String
  phone : Option String := none
deriving DecidableEq, Repr

/-- The validation sequence shared by `CreateCustomer.mutate` and the
per-item body of `BulkCreateCustomers.mutate`: email first, then phone;
the first `ValidationError` message raised wins. -/
def validateCustomerInput (s : Store) (inp : CreateCustomerInput) : Option String :=
  match validate_email s inp.email with
  | some msg => some msg
  | none => validate_phone inp.phone

/-- Embeds `Customer(name=..., email=..., phone=...)` followed by `save()`:
the new record and the store after the insert. -/
def applyCreateCustomer (s : Store) (inp : CreateCustomerInput) : Customer × Store :=
  let c : Customer :=
    { id := s.next_customer_id, name := inp.name, email := inp.email, phone := inp.phone }
  (c, { s with customers := s.customers ++ [c], next_customer_id := s.next_customer_id + 1 })

/-- Embeds `CreateCustomer.mutate`'s `except ValidationError` branch: rewrites the
raw `str(e)` based on lowercase substring tests. -/
def describeCreateError (msg : String) : String :=
  let e := pyErrStr msg
  if containsLower e "email" then "A customer with this email already exists."
  else if containsLower e "phone" then "Invalid phone format"
  else e

structure CreateCustomerResult where
  customer : Option Customer
  message : String
  success : Bool
deriving DecidableEq, Repr

/-- Embeds `CreateCustomer.mutate`. -/
def create_customer (s : Store) (inp : CreateCustomerInput) :
    CreateCustomerResult × Store :=
  match validateCustomerInput s inp with
  | some msg =>
    ({ customer := none, message := describeCreateError msg, success := false }, s)
  | none =>
    let cs := applyCreateCustomer s inp
    ({ customer := some cs.1, message := "Customer created successfully!", success := true },
     cs.2)

/-- The per-item error record `ErrorType(field=..., message=..., index=...)`. -/
structure BulkError where
  field : String
  message : String
  index : Nat
deriving DecidableEq, Repr

structure BulkResult where
  customers : List Customer
  errors : List BulkError
deriving DecidableEq, Repr

/-- The `except Exception` branch of `BulkCreateCustomers.mutate`:
rewrites `str(e)` via lowercase substring tests (note the extra
`already exists` test compared to the single-create path). -/
def describeBulkError (email msg : String) : String :=
  let e := pyErrStr msg
  if containsLower e "email" && containsLower e "already exists" then
    "Email " ++ sq ++ email ++ sq ++ " already exists"
  else if containsLower e "phone" then "Invalid phone format"
  else e

/-- The `for index, input_data in enumerate(input)` loop of
`BulkCreateCustomers.mutate`: each item is validated against the store as
it stands at its turn; failures are collected and never stop the loop. -/
def bulkGo (s : Store) (idx : Nat) : List CreateCustomerInput → BulkResult × Store
  | [] => ({ customers := [], errors := [] }, s)
  | inp :: rest =>
    match validateCustomerInput s inp with
    | some msg =>
      let r := bulkGo s (idx + 1) rest
      ({ customers := r.1.customers,
         errors := { field := "customer_data",
                     message := describeBulkError inp.email msg,
                     index := idx } :: r.1.errors },
       r.2)
    | none =>
      let cs := applyCreateCustomer s inp
      let r := bulkGo cs.2 (idx + 1) rest
      ({ customers := cs.1 :: r.1.customers, errors := r.1.errors }, r.2)

/-- Embeds `BulkCreateCustomers.mutate`. -/
def bulk_create_customers (s : Store) (inputs : List CreateCustomerInput) :
    BulkResult × Store :=
  bulkGo s 0 inputs

/-- Embeds `CreateProductInput` (stock has GraphQL default value 0). -/
structure CreateProductInput where
  name : String
  price : Int
  stock : Int := 0
deriving DecidableEq, Repr

/-- Embeds `CreateProduct.mutate`'s `except ValidationError` message rewriting. -/
def describeProductError (msg : String) : String :=
  let e := pyErrStr msg
  if containsLower e "price" then "Price must be a positive number"
  else if containsLower e "stock" then "Stock cannot be negative"
  else e

structure CreateProductResult where
  product : Option Product
  message : String
  success : Bool
deriving DecidableEq, Repr

/-- Embeds `CreateProduct.mutate`. -/
def create_product (s : Store) (inp : CreateProductInput) :
    CreateProductResult × Store :=
  match validate_price inp.price with
  | some msg =>
    ({ product := none, message := describeProductError msg, success := false }, s)
  | none =>
    match validate_stock inp.stock with
    | some msg =>
      ({ product := none, message := describeProductError msg, success := false }, s)
    | none =>
      let p : Product :=
        { id := s.next_product_id, name := inp.name, price := inp.price, stock := inp.stock }
      ({ product := some p, message := "Product created successfully!", success := true },
       { s with products := s.products ++ [p], next_product_id := s.next_product_id + 1 })

/-- Embeds `Product.objects.get(id=product_id)` as used by `CreateOrder.mutate`. -/
def lookupProduct (s : Store) (pid : Nat) : Option Product :=
  s.products.find? (fun p => p.id = pid)

/-- The product ids of the request that resolve to no product
(`invalid_product_ids` in `CreateOrder.mutate`). -/
def invalidProductIds (s : Store) (pids : List Nat) : List Nat :=
  pids.filter (fun pid => (lookupProduct s pid).isNone)

/-- The resolved products, in request order (`products` in
`CreateOrder.mutate`); an id occurring twice contributes twice. -/
def resolvedProducts (s : Store) (pids : List Nat) : List Product :=
  pids.filterMap (lookupProduct s)

structure CreateOrderResult where
  order : Option Order
  message : String
  success : Bool
deriving DecidableEq, Repr

/-- Embeds `CreateOrder.mutate`: customer check, empty-list check, product
resolution, total computation, then `Order(...).save()`.  No order-item
rows are written (the source's "order items" comment has no matching
code), so `order_items` is untouched. -/
def create_order (s : Store) (customer_id : Nat) (product_ids : List Nat)
    (order_date : Option Nat) : CreateOrderResult × Store :=
  match s.customers.find? (fun c => c.id = customer_id) with
  | none =>
    ({ order := none, message := "Customer not found", success := false }, s)
  | some customer =>
    if product_ids = [] then
      ({ order := none, message := "At least one product is required", success := false }, s)
    else if invalidProductIds s product_ids = [] then
      let total := ((resolvedProducts s product_ids).map (fun p => p.price)).sum
      let o : Order :=
        { id := s.next_order_id, customer_id := customer.id,
          order_date := order_date, total_amount := total }
      ({ order := some o, message := "Order created successfully!", success := true },
       { s with orders := s.orders ++ [o], next_order_id := s.next_order_id + 1 })
    else
      ({ order := none,
         message := "Invalid product IDs: " ++
           joinComma ((invalidProductIds s product_ids).map (fun n => toString n)),
         success := false }, s)

/-- The products associated to an order through the order-item relation
(the semantics of `OrderType.resolve_products`). -/
def orderProducts (s : Store) (oid : Nat) : List Product :=
  (s.order_items.filter (fun it => it.order_id = oid)).filterMap
    (fun it => lookupProduct s it.product_id)

structure UpdateLowStockResult where
  updated_count : Int
  message : String
  success : Bool
deriving DecidableEq, Repr

/-- Embeds `UpdateLowStockProducts.mutate`: every product with `stock < 10` is
incremented by 10 and saved.  The success-path `return` then constructs
the graphene result with `updated_product_list=...`, which is not a
declared output field of the mutation; graphene's object constructor
rejects unknown keyword fields with a `TypeError`, so control falls into
the `except Exception` branch — the stock updates are already persisted,
but the reported result is the error result with `updated_count=0`. -/
def update_low_stock_products (s : Store) : UpdateLowStockResult × Store :=
  let bump : Product → Product :=
    fun p => if p.stock < 10 then { p with stock := p.stock + 10 } else p
  let s2 : Store := { s with products := s.products.map bump }
  ({ updated_count := 0,
     message := "An error occurred: " ++ sq ++ "updated_product_list" ++ sq ++
       " is an invalid keyword argument for UpdateLowStockProducts",
     success := false },
   s2)

/-! ## Query layer (`Query` resolvers in `crm/schema.py`) -/

/-- Embeds `OrderByInput` (`direction` has GraphQL default value `"asc"`). -/
structure OrderByInput where
  field : String
  direction : String := "asc"
deriving DecidableEq, Repr

inductive QueryError where
  | invalidSortField
deriving DecidableEq, Repr

/-- Embeds `CustomerFilterInput`. -/
structure CustomerFilterInput where
  name : Option String := none
  email : Option String := none
  created_at_gte : Option Nat := none
  created_at_lte : Option Nat := none
  phone_pattern : Option String := none
deriving DecidableEq, Repr

/-- Embeds `ProductFilterInput`. -/
structure ProductFilterInput where
  name : Option String := none
  price_gte : Option Int := none
  price_lte : Option Int := none
  stock_gte : Option Int := none
  stock_lte : Option Int := none
  low_stock : Option Bool := none
deriving DecidableEq, Repr

/-- Embeds `OrderFilterInput`. -/
structure OrderFilterInput where
  total_amount_gte : Option Int := none
  total_amount_lte : Option Int := none
  order_date_gte : Option Nat := none
  order_date_lte : Option Nat := none
  customer_name : Option String := none
  product_name : Option String := none
  product_id : Option Nat := none
deriving DecidableEq, Repr

/-- A sortable field value of one of the entities. -/
inductive FieldVal where
  | n (v : Nat)
  | i (v : Int)
  | s (v : String)
  | os (v : Option String)
  | on (v : Option Nat)
deriving DecidableEq, Repr

/-- Ascending comparison on field values (`none` sorts first, matching
nulls-first ascending order). -/
def fieldValLe : FieldVal → FieldVal → Bool
  | .n a, .n b => a ≤ b
  | .i a, .i b => a ≤ b
  | .s a, .s b => a ≤ b
  | .os a, .os b =>
    match a, b with
    | none, _ => true
    | some _, none => false
    | some x, some y => x ≤ y
  | .on a, .on b =>
    match a, b with
    | none, _ => true
    | some _, none => false
    | some x, some y => x ≤ y
  | _, _ => true

/-- Insert into a list sorted by `le` (stable). -/
def insertSorted (le : α → α → Bool) (x : α) : List α → List α
  | [] => [x]
  | y :: t => if le x y then x :: y :: t else y :: insertSorted le x t

/-- Insertion sort by `le`. -/
def sortWithLe (le : α → α → Bool) : List α → List α
  | [] => []
  | x :: t => insertSorted le x (sortWithLe le t)

/-- Modelled from the spec: the underlying sort mechanism
(`queryset.order_by(field)`, with the resolver prefixing `-` for
`direction == "desc"`).  The sortable names are the entity's model
fields; per §4.3/§7 a field name that does not exist on the entity
fails the call with `InvalidSortField` instead of being ignored. -/
def applyOrderBy (validFields : List String) (key : String → α → FieldVal)
    (order_by : Option OrderByInput) (xs : List α) : Except QueryError (List α) :=
  match order_by with
  | none => .ok xs
  | some ob =>
    if ob.field ∈ validFields then
      let sorted := sortWithLe (fun a b => fieldValLe (key ob.field a) (key ob.field b)) xs
      .ok (if ob.direction = "desc" then sorted.reverse else sorted)
    else
      .error QueryError.invalidSortField

/-- A string filter input is active only when present and non-empty
(Python `if filters.x:`). -/
def strActive : Option String → Option String
  | some v => if v = "" then none else some v
  | none => none

/-- A numeric (`Int`/`Decimal`) filter input is active only when present
and non-zero (Python truthiness). -/
def intActive : Option Int → Option Int
  | some v => if v = 0 then none else some v
  | none => none

/-- Apply a filter predicate when its input is active. -/
def condFilter (xs : List α) : Option β → (β → α → Bool) → List α
  | none, _ => xs
  | some v, p => xs.filter (p v)

def customerSortFields : List String :=
  ["id", "pk", "name", "email", "phone", "created_at", "updated_at"]

def customerKey (f : String) (c : Customer) : FieldVal :=
  if f = "name" then .s c.name
  else if f = "email" then .s c.email
  else if f = "phone" then .os c.phone
  else if f = "created_at" then .n c.created_at
  else if f = "updated_at" then .n c.updated_at
  else .n c.id

/-- Embeds `Query.resolve_customers`. -/
def resolve_customers (s : Store) (filters : Option CustomerFilterInput)
    (order_by : Option OrderByInput) : Except QueryError (List Customer) :=
  let qs := s.customers
  let qs :=
    match filters with
    | none => qs
    | some f =>
      let qs := condFilter qs (strActive f.name) (fun v c => containsLower c.name v)
      let qs := condFilter qs (strActive f.email) (fun v c => containsLower c.email v)
      let qs := condFilter qs f.created_at_gte (fun v c => decide (v ≤ c.created_at))
      let qs := condFilter qs f.created_at_lte (fun v c => decide (c.created_at ≤ v))
      condFilter qs (strActive f.phone_pattern)
        (fun v c => match c.phone with
          | some p => p.startsWith v
          | none => false)
  applyOrderBy customerSortFields customerKey order_by qs

def productSortFields : List String :=
  ["id", "pk", "name", "price", "stock", "created_at", "updated_at"]

def productKey (f : String) (p : Product) : FieldVal :=
  if f = "name" then .s p.name
  else if f = "price" then .i p.price
  else if f = "stock" then .i p.stock
  else if f = "created_at" then .n p.created_at
  else if f = "updated_at" then .n p.updated_at
  else .n p.id

/-- Embeds `Query.resolve_products`. -/
def resolve_products (s : Store) (filters : Option ProductFilterInput)
    (order_by : Option OrderByInput) : Except QueryError (List Product) :=
  let qs := s.products
  let qs :=
    match filters with
    | none => qs
    | some f =>
      let qs := condFilter qs (strActive f.name) (fun v p => containsLower p.name v)
      let qs := condFilter qs (intActive f.price_gte) (fun v p => decide (v ≤ p.price))
      let qs := condFilter qs (intActive f.price_lte) (fun v p => decide (p.price ≤ v))
      let qs := condFilter qs (intActive f.stock_gte) (fun v p => decide (v ≤ p.stock))
      let qs := condFilter qs (intActive f.stock_lte) (fun v p => decide (p.stock ≤ v))
      match f.low_stock with
      | some true => qs.filter (fun p => decide (p.stock < 10))
      | _ => qs
  applyOrderBy productSortFields productKey order_by qs

def orderSortFields : List String :=
  ["id", "pk", "customer", "customer_id", "order_date", "status", "total_amount",
   "created_at"]

def orderKey (f : String) (o : Order) : FieldVal :=
  if f = "customer" ∨ f = "customer_id" then .n o.customer_id
  else if f = "order_date" then .on o.order_date
  else if f = "status" then .s o.status
  else if f = "total_amount" then .i o.total_amount
  else if f = "created_at" then .n o.created_at
  else .n o.id

/-- Embeds `Query.resolve_orders`. -/
def resolve_orders (s : Store) (filters : Option OrderFilterInput)
    (order_by : Option OrderByInput) : Except QueryError (List Order) :=
  let qs := s.orders
  let qs :=
    match filters with
    | none => qs
    | some f =>
      let qs := condFilter qs (intActive f.total_amount_gte)
        (fun v o => decide (v ≤ o.total_amount))
      let qs := condFilter qs (intActive f.total_amount_lte)
        (fun v o => decide (o.total_amount ≤ v))
      let qs := condFilter qs f.order_date_gte
        (fun v o => match o.order_date with | some d => decide (v ≤ d) | none => false)
      let qs := condFilter qs f.order_date_lte
        (fun v o => match o.order_date with | some d => decide (d ≤ v) | none => false)
      let qs := condFilter qs (strActive f.customer_name)
        (fun v o => match s.customers.find? (fun c => c.id = o.customer_id) with
          | some c => containsLower c.name v
          | none => false)
      let qs := condFilter qs f.product_id
        (fun v o => s.order_items.any (fun it => it.order_id = o.id && it.product_id = v))
      match strActive f.product_name with
      | some v =>
        (qs.filter (fun o => s.order_items.any (fun it =>
          it.order_id = o.id &&
            match lookupProduct s it.product_id with
            | some p => containsLower p.name v
            | none => false))).dedup
      | none => qs
  applyOrderBy orderSortFields orderKey order_by qs

/-- Embeds `Query.resolve_customer_orders`: a plain filter on `customer_id`
(never a not-found fault), optional status filter, ordered by
`-order_date`. -/
def resolve_customer_orders (s : Store) (customer_id : Nat) (status : Option String) :
    Except QueryError (List Order) :=
  let qs := s.orders.filter (fun o => o.customer_id = customer_id)
  let qs :=
    match status with
    | some st => if st = "" then qs else qs.filter (fun o => o.status = st)
    | none => qs
  .ok ((sortWithLe (fun a b => fieldValLe (.on a.order_date) (.on b.order_date)) qs).reverse)

/-! ## Schema registration (`crm/schema.py`, bottom) -/

/-- The operations the `Query` class defines (graphene camel-cases the
resolver names). -/
def queryClassFields : List String :=
  ["allCustomers", "allProducts", "allOrders",
   "customers", "products", "orders",
   "searchCustomers", "availableProducts", "productsByPriceRange",
   "customerOrders", "highValueOrders"]

/-- The operations registered on the `Mutation` class
(`crm/schema.py` lines 600-604): `updateLowStockProducts` is absent. -/
def mutationClassFields : List String :=
  ["createCustomer", "bulkCreateCustomers", "createProduct", "createOrder"]

structure GraphQLSchemaDef where
  query : Option (List String)
  mutation : Option (List String)
deriving DecidableEq, Repr

/-- Embeds `schema = graphene.Schema(mutation=Mutation)`: no query root is
passed. -/
def schemaDef : GraphQLSchemaDef :=
  { query := none, mutation := some mutationClassFields }

/-- The operations a client can reach through a schema definition. -/
def reachableOps (g : GraphQLSchemaDef) : List String :=
  g.query.getD [] ++ g.mutation.getD []

/-- The operations the spec's §6 API surface lists. -/
def listedOps : List String :=
  ["customers", "products", "orders", "searchCustomers", "availableProducts",
   "productsByPriceRange", "customerOrders", "highValueOrders",
   "createCustomer", "bulkCreateCustomers", "createProduct", "createOrder",
   "updateLowStockProducts"]

/-! ## Derived verdict helpers for the bulk mutation -/

/-- The validation verdict of each bulk item in order, computed against
the store as it evolves (`true` = the item fails validation). -/
def bulkFlags (s : Store) : List CreateCustomerInput → List Bool
  | [] => []
  | inp :: rest =>
    match validateCustomerInput s inp with
    | some _ => true :: bulkFlags s rest
    | none => false :: bulkFlags (applyCreateCustomer s inp).2 rest

/-- The positions (from `idx`) at which a flag list is `true`. -/
def flagIdx (idx : Nat) : List Bool → List Nat
  | [] => []
  | b :: t => if b then idx :: flagIdx (idx + 1) t else flagIdx (idx + 1) t

/-! ## Concrete fixtures used by witnesses and counterexamples -/

/-- A small well-formed store: one customer, two products. -/
def baseStore : Store :=
  { customers := [{ id := 1, name := "Alice", email := "alice@example.com" }],
    products := [{ id := 1, name := "Laptop", price := 1000, stock := 5 },
                 { id := 2, name := "Mouse", price := 1550, stock := 12 }],
    next_customer_id := 2, next_product_id := 3 }

/-- The store `baseStore` extended with one persisted order for customer 1. -/
def orderStore : Store :=
  { baseStore with
    orders := [{ id := 1, customer_id := 1, order_date := some 5, total_amount := 2550 }],
    next_order_id := 2 }

/-! # Theorems -/

/-! ## C1: schema registration -/

/-- C1: the claim states that all listed query and mutation operations are
reachable through the constructed schema.  The schema is built as
`graphene.Schema(mutation=Mutation)` with no query root, and the
`Mutation` class omits `updateLowStockProducts`, so only the four create
mutations are reachable.  This theorem exhibits the gap. -/
theorem schema_registration_gap :
    ¬ (∀ op ∈ listedOps, op ∈ reachableOps schemaDef) ∧
    "updateLowStockProducts" ∉ reachableOps schemaDef ∧
    "customers" ∉ reachableOps schemaDef ∧
    schemaDef.query = none ∧
    "updateLowStockProducts" ∉ mutationClassFields ∧
    "customers" ∈ queryClassFields := by decide

/-! ## C3: order-item association -/

/-- C3: a successful `createOrder` persists the order but writes no
order-item rows, so the created order is associated with no products,
contradicting the claim that it is associated with the supplied
products. -/
theorem create_order_items_missing :
    ((create_order baseStore 1 [1] none).1).success = true ∧
    ((create_order baseStore 1 [1] none).2).orders.length = 1 ∧
    ((create_order baseStore 1 [1] none).2).order_items = [] ∧
    orderProducts ((create_order baseStore 1 [1] none).2) 1 = [] := by decide

/-! ## C5: updateLowStockProducts -/

/-- C5: on a store with one product below the threshold, the mutation
persists the stock increments (5 becomes 15, 12 stays put) but — because
its success return constructs the graphene result with the undeclared
`updated_product_list` field — reports the generic error result:
`success = false` and `updated_count = 0` instead of the claimed
`updatedCount = 1` with success. -/
theorem update_low_stock_divergence :
    (((update_low_stock_products baseStore).2).products.map (fun p => p.stock)) = [15, 12] ∧
    ((update_low_stock_products baseStore).1).success = false ∧
    ((update_low_stock_products baseStore).1).updated_count = 0 := by decide

/-! ## C4: createOrder with an empty product list -/

/-- C4 counterexample: with an empty `productIds` list and an unresolved
`customerId`, the call fails with the customer-not-found message, not the
no-products message — the customer check runs first.  (The store is still
unchanged and no order is created.) -/
theorem create_order_empty_products_cex :
    ((create_order ({} : Store) 1 [] none).1).success = false ∧
    ((create_order ({} : Store) 1 [] none).1).message = "Customer not found" ∧
    ((create_order ({} : Store) 1 [] none).1).message ≠ "At least one product is required" ∧
    (create_order ({} : Store) 1 [] none).2 = ({} : Store) := by decide

/-- C4 amended: a `createOrder` call with an empty `productIds` list whose
`customerId` resolves fails with the no-products message; with an
unresolved `customerId` it fails with the customer-not-found message
instead.  In both cases the result is `success = false` and the store is
returned unchanged (no order is created). -/
theorem create_order_empty_products_amended (s : Store) (cid : Nat) (d : Option Nat) :
    ((∃ c, s.customers.find? (fun c2 => c2.id = cid) = some c) →
      create_order s cid [] d =
        ({ order := none, message := "At least one product is required", success := false }, s)) ∧
    (s.customers.find? (fun c2 => c2.id = cid) = none →
      create_order s cid [] d =
        ({ order := none, message := "Customer not found", success := false }, s)) := by
  constructor
  · rintro ⟨c, hc⟩
    simp [create_order, hc]
  · intro hc
    simp [create_order, hc]

/-- C4 amended, witness: both branches at concrete inputs. -/
theorem create_order_empty_products_amended_w :
    create_order baseStore 1 [] none =
      ({ order := none, message := "At least one product is required", success := false },
       baseStore) ∧
    create_order baseStore 2 [] none =
      ({ order := none, message := "Customer not found", success := false }, baseStore) :=
  ⟨(create_order_empty_products_amended baseStore 1 none).1
      ⟨{ id := 1, name := "Alice", email := "alice@example.com" }, by decide⟩,
   (create_order_empty_products_amended baseStore 2 none).2 (by decide)⟩

/-! ## C6: createCustomer validation failures -/

/-- C6 counterexample: on an empty store (so no duplicate exists), an
invalid-format email is reported with the duplicate-email message — the
handler tests whether `str(e)` contains `email`, which the format-error
message does — so the message does not distinguish the generic
invalid-format case from the duplicate-email case. -/
theorem create_customer_mislabel_cex :
    (({} : Store)).customers = [] ∧
    ((create_customer ({} : Store) { name := "A", email := "not-an-email" }).1).success
      = false ∧
    ((create_customer ({} : Store) { name := "A", email := "not-an-email" }).1).message
      = "A customer with this email already exists." := by decide

lemma validate_email_msgs (s : Store) (e m : String)
    (h : validate_email s e = some m) :
    m = "Please enter a valid email address." ∨
      m = "A customer with this email already exists." := by
  unfold validate_email at h
  split at h
  · exact Or.inl (Option.some.inj h).symm
  · split at h
    · exact Or.inr (Option.some.inj h).symm
    · exact absurd h (by simp)

lemma validate_phone_msg (p : Option String) (m : String)
    (h : validate_phone p = some m) :
    m = "Phone number must be in format: +1234567890 or 123-456-7890" := by
  cases p with
  | none => simp [validate_phone] at h
  | some v =>
    simp only [validate_phone] at h
    by_cases h1 : v = ""
    · simp [h1] at h
    · rw [if_neg h1] at h
      by_cases h2 : phoneFormatOk v = true
      · simp [h2] at h
      · rw [if_neg h2] at h
        exact (Option.some.inj h).symm

lemma describe_email_msgs (m : String)
    (h : m = "Please enter a valid email address." ∨
         m = "A customer with this email already exists.") :
    describeCreateError m = "A customer with this email already exists." := by
  rcases h with h | h <;> subst h <;> decide

lemma describe_phone_msg :
    describeCreateError "Phone number must be in format: +1234567890 or 123-456-7890"
      = "Invalid phone format" := by decide

/-- C6 amended: a `createCustomer` call whose input fails validation
returns `success = false`, writes no record, and reports: the
duplicate-email message whenever the underlying error mentions email —
which conflates the invalid-email-format (generic) case with the
duplicate-email case — and the invalid-phone message for phone failures.
Only the duplicate/format conflation differs from the claim. -/
theorem create_customer_invalid_amended (s : Store) (inp : CreateCustomerInput)
    (h : (validateCustomerInput s inp).isSome = true) :
    ((create_customer s inp).1).success = false ∧
    ((create_customer s inp).1).customer = none ∧
    (create_customer s inp).2 = s ∧
    ((validate_email s inp.email).isSome = true →
      ((create_customer s inp).1).message = "A customer with this email already exists.") ∧
    (validate_email s inp.email = none → (validate_phone inp.phone).isSome = true →
      ((create_customer s inp).1).message = "Invalid phone format") := by
  cases hve : validate_email s inp.email with
  | some m =>
    have hvc : validateCustomerInput s inp = some m := by
      simp [validateCustomerInput, hve]
    refine ⟨?_, ?_, ?_, ?_, ?_⟩
    · simp [create_customer, hvc]
    · simp [create_customer, hvc]
    · simp [create_customer, hvc]
    · intro _
      simp [create_customer, hvc, describe_email_msgs m (validate_email_msgs s inp.email m hve)]
    · intro hnone
      exact absurd hnone (by simp)
  | none =>
    cases hvp : validate_phone inp.phone with
    | some m =>
      have hvc : validateCustomerInput s inp = some m := by
        simp [validateCustomerInput, hve, hvp]
      refine ⟨?_, ?_, ?_, ?_, ?_⟩
      · simp [create_customer, hvc]
      · simp [create_customer, hvc]
      · simp [create_customer, hvc]
      · intro hs
        exact absurd hs (by simp)
      · intro _ _
        have hm := validate_phone_msg inp.phone m hvp
        subst hm
        simp [create_customer, hvc, describe_phone_msg]
    | none =>
      have hvc : validateCustomerInput s inp = none := by
        simp [validateCustomerInput, hve, hvp]
      rw [hvc] at h
      exact absurd h (by simp)

/-- C6 amended, witness: invalid email format on an empty store. -/
theorem create_customer_invalid_amended_w :
    ((create_customer ({} : Store) { name := "A", email := "not.an.email" }).1).success
      = false ∧
    ((create_customer ({} : Store) { name := "A", email := "not.an.email" }).1).message
      = "A customer with this email already exists." := by
  have h := create_customer_invalid_amended ({} : Store)
    { name := "A", email := "not.an.email" } (by decide)
  exact ⟨h.1, h.2.2.2.1 (by decide)⟩

/-! ## C2: createOrder total -/

/-- C2: when the customer resolves and every product id of the non-empty
list resolves, `createOrder` succeeds and the persisted order's
`total_amount` is the sum of the resolved products' prices at call
time. -/
theorem create_order_total_correct (s : Store) (cid : Nat) (pids : List Nat)
    (d : Option Nat) (c : Customer)
    (hc : s.customers.find? (fun c2 => c2.id = cid) = some c)
    (hne : pids ≠ [])
    (hall : ∀ pid ∈ pids, (lookupProduct s pid).isSome = true) :
    ((create_order s cid pids d).1).success = true ∧
    ((create_order s cid pids d).1).order = some
      { id := s.next_order_id, customer_id := c.id, order_date := d,
        total_amount := ((resolvedProducts s pids).map (fun p => p.price)).sum } ∧
    ((create_order s cid pids d).2).orders = s.orders ++
      [{ id := s.next_order_id, customer_id := c.id, order_date := d,
         total_amount := ((resolvedProducts s pids).map (fun p => p.price)).sum }] := by
  have hinv : invalidProductIds s pids = [] := by
    apply List.filter_eq_nil_iff.mpr
    intro pid hm
    have hs := hall pid hm
    cases hx : lookupProduct s pid with
    | none => rw [hx] at hs; simp at hs
    | some p => simp [hx]
  simp [create_order, hc, hne, hinv]

/-- C2, witness: products priced 1000 and 1550 (a fixed-point rendering of
10.00 and 15.50) give the order total 2550 (25.50). -/
theorem create_order_total_correct_w :
    ((create_order baseStore 1 [1, 2] none).1).success = true ∧
    ((create_order baseStore 1 [1, 2] none).1).order = some
      { id := 1, customer_id := 1, order_date := none, total_amount := 2550 } := by
  have h := create_order_total_correct baseStore 1 [1, 2] none
    { id := 1, name := "Alice", email := "alice@example.com" }
    (by decide) (by decide) (by decide)
  refine ⟨h.1, ?_⟩
  rw [h.2.1]
  rfl

/-! ## C9: unknown sort fields -/

/-- C9: a `customers`, `products` or `orders` query whose `orderBy` names
a field that does not exist on the entity fails whole with
`InvalidSortField`, for every store and every filter input. -/
theorem invalid_sort_field_rejected (s : Store) (fc : Option CustomerFilterInput)
    (fp : Option ProductFilterInput) (fo : Option OrderFilterInput) (ob : OrderByInput)
    (h1 : ob.field ∉ customerSortFields) (h2 : ob.field ∉ productSortFields)
    (h3 : ob.field ∉ orderSortFields) :
    resolve_customers s fc (some ob) = .error .invalidSortField ∧
    resolve_products s fp (some ob) = .error .invalidSortField ∧
    resolve_orders s fo (some ob) = .error .invalidSortField := by
  refine ⟨?_, ?_, ?_⟩
  · simp [resolve_customers, applyOrderBy, h1]
  · simp [resolve_products, applyOrderBy, h2]
  · simp [resolve_orders, applyOrderBy, h3]

/-- C9, witness: the field name `nonexistent` is rejected on all three
queries. -/
theorem invalid_sort_field_rejected_w :
    resolve_customers baseStore none (some { field := "nonexistent" })
      = .error .invalidSortField ∧
    resolve_products baseStore none (some { field := "nonexistent" })
      = .error .invalidSortField ∧
    resolve_orders baseStore none (some { field := "nonexistent" })
      = .error .invalidSortField :=
  invalid_sort_field_rejected baseStore none none none { field := "nonexistent" }
    (by decide) (by decide) (by decide)

/-! ## C10: customerOrders on a missing customer -/

/-- C10: `customerOrders` is a plain filter: when the customer id matches
no customer (in a store whose orders all reference existing customers) it
returns the empty list rather than an error, and likewise when the given
status matches no order of that customer. -/
theorem customer_orders_not_found_empty (s : Store) (cid : Nat) (st : Option String) :
    ((∀ o ∈ s.orders, ∃ c ∈ s.customers, o.customer_id = c.id) →
      (∀ c ∈ s.customers, c.id ≠ cid) →
      resolve_customer_orders s cid st = .ok []) ∧
    (∀ stv, st = some stv → stv ≠ "" →
      (∀ o ∈ s.orders, o.customer_id = cid → o.status ≠ stv) →
      resolve_customer_orders s cid st = .ok []) := by
  constructor
  · intro h1 h2
    have hf : s.orders.filter (fun o => o.customer_id = cid) = [] := by
      apply List.filter_eq_nil_iff.mpr
      intro o ho
      simp only [decide_eq_true_eq]
      intro hoc
      obtain ⟨c, hcm, hoc2⟩ := h1 o ho
      exact h2 c hcm (hoc2 ▸ hoc)
    cases st with
    | none => simp [resolve_customer_orders, hf, sortWithLe]
    | some stv =>
      by_cases he : stv = "" <;>
        simp [resolve_customer_orders, hf, sortWithLe, he]
  · intro stv hst hne h3
    subst hst
    have hf : (s.orders.filter (fun o => o.customer_id = cid)).filter
        (fun o => o.status = stv) = [] := by
      apply List.filter_eq_nil_iff.mpr
      intro o ho
      have hm := List.mem_filter.mp ho
      simp only [decide_eq_true_eq] at hm ⊢
      exact h3 o hm.1 hm.2
    simp [resolve_customer_orders, if_neg hne, hf, sortWithLe]

/-- C10, witness: a store with one customer and one order; an unknown
customer id and an unmatched status both give the empty result. -/
theorem customer_orders_not_found_empty_w :
    resolve_customer_orders orderStore 2 none = .ok [] ∧
    resolve_customer_orders orderStore 1 (some "shipped") = .ok [] := by
  constructor
  · exact (customer_orders_not_found_empty orderStore 2 none).1 (by decide) (by decide)
  · exact (customer_orders_not_found_empty orderStore 1 (some "shipped")).2
      "shipped" rfl (by decide) (by decide)

/-! ## C7: bulkCreateCustomers bookkeeping -/

lemma bulkGo_spec (inputs : List CreateCustomerInput) :
    ∀ (s : Store) (idx : Nat),
    ((bulkGo s idx inputs).1).customers.length + ((bulkGo s idx inputs).1).errors.length
        = inputs.length ∧
    ((bulkGo s idx inputs).1).errors.length
        = ((bulkFlags s inputs).filter (fun b => b)).length ∧
    ((bulkGo s idx inputs).1).errors.map (fun e => e.index)
        = flagIdx idx (bulkFlags s inputs) ∧
    ((bulkGo s idx inputs).2).customers
        = s.customers ++ ((bulkGo s idx inputs).1).customers := by
  induction inputs with
  | nil => intro s idx; simp [bulkGo, bulkFlags, flagIdx]
  | cons inp rest ih =>
    intro s idx
    cases hv : validateCustomerInput s inp with
    | some msg =>
      have h := ih s (idx + 1)
      simp only [bulkGo, bulkFlags, hv, List.length_cons, List.filter_cons_of_pos,
        List.map_cons, List.length_map, flagIdx, if_pos]
      refine ⟨by omega, by omega, ?_, h.2.2.2⟩
      simp [h.2.2.1]
    | none =>
      have h := ih (applyCreateCustomer s inp).2 (idx + 1)
      simp only [bulkGo, bulkFlags, hv, List.length_cons, List.filter_cons_of_neg,
        List.map_cons, flagIdx, Bool.false_eq_true, not_false_eq_true, if_neg]
      refine ⟨by omega, h.2.1, h.2.2.1, ?_⟩
      rw [h.2.2.2]
      simp [applyCreateCustomer]

/-- C7: for every store and input list, `bulkCreateCustomers` processes
every item (created + errors = N), creates exactly the items whose
validation succeeds at their turn (N − k records for k failures), returns
one error per failing item, with each error's `index` exactly the
position of its failing input, and persists exactly the created
records. -/
theorem bulk_create_counts (s : Store) (inputs : List CreateCustomerInput) :
    ((bulk_create_customers s inputs).1).customers.length
        + ((bulk_create_customers s inputs).1).errors.length = inputs.length ∧
    ((bulk_create_customers s inputs).1).errors.length
        = ((bulkFlags s inputs).filter (fun b => b)).length ∧
    ((bulk_create_customers s inputs).1).customers.length
        = inputs.length - ((bulkFlags s inputs).filter (fun b => b)).length ∧
    ((bulk_create_customers s inputs).1).errors.map (fun e => e.index)
        = flagIdx 0 (bulkFlags s inputs) ∧
    ((bulk_create_customers s inputs).2).customers
        = s.customers ++ ((bulk_create_customers s inputs).1).customers := by
  unfold bulk_create_customers
  obtain ⟨h1, h2, h3, h4⟩ := bulkGo_spec inputs s 0
  exact ⟨h1, h2, by omega, h3, h4⟩

/-! ## C8: email uniqueness -/

lemma storeEmails_applyCreate (s : Store) (inp : CreateCustomerInput) :
    storeEmails (applyCreateCustomer s inp).2 = storeEmails s ++ [inp.email] := by
  simp [applyCreateCustomer, storeEmails]

lemma nodup_snoc {α : Type _} (l : List α) (a : α) (h1 : l.Nodup) (h2 : a ∉ l) :
    (l ++ [a]).Nodup := by
  simp [List.nodup_append, h1, h2]

lemma validate_email_present (s : Store) (e : String) (h : e ∈ storeEmails s) :
    ∃ m, validate_email s e = some m ∧
      (m = "Please enter a valid email address." ∨
       m = "A customer with this email already exists.") := by
  have hany : s.customers.any (fun c => c.email = e) = true := by
    simp only [List.any_eq_true, decide_eq_true_eq]
    simp only [storeEmails, List.mem_map] at h
    exact h
  unfold validate_email
  by_cases hf : emailFormatOk e = true
  · rw [if_neg (by simp [hf]), if_pos hany]
    exact ⟨_, rfl, Or.inr rfl⟩
  · rw [if_pos (by simp [Bool.not_eq_true] at hf ⊢; exact hf)]
    exact ⟨_, rfl, Or.inl rfl⟩

lemma validate_email_dup (s : Store) (e : String) (hf : emailFormatOk e = true)
    (h : e ∈ storeEmails s) :
    validate_email s e = some "A customer with this email already exists." := by
  have hany : s.customers.any (fun c => c.email = e) = true := by
    simp only [List.any_eq_true, decide_eq_true_eq]
    simp only [storeEmails, List.mem_map] at h
    exact h
  unfold validate_email
  rw [if_neg (by simp [hf]), if_pos hany]

lemma validate_none_fresh (s : Store) (inp : CreateCustomerInput)
    (h : validateCustomerInput s inp = none) : inp.email ∉ storeEmails s := by
  intro hm
  obtain ⟨m, hve, _⟩ := validate_email_present s inp.email hm
  rw [validateCustomerInput, hve] at h
  simp at h

lemma describe_bulk_dup (e : String) :
    describeBulkError e "A customer with this email already exists."
      = "Email " ++ sq ++ e ++ sq ++ " already exists" := by
  have hcond :
      (containsLower (pyErrStr "A customer with this email already exists.") "email" &&
       containsLower (pyErrStr "A customer with this email already exists.")
         "already exists") = true := by decide
  simp [describeBulkError, hcond]

lemma bulkGo_unique (inputs : List CreateCustomerInput) :
    ∀ (s : Store) (idx : Nat),
    (∀ c ∈ ((bulkGo s idx inputs).1).customers, c.email ∉ storeEmails s) ∧
    (emailsUnique s → emailsUnique ((bulkGo s idx inputs).2)) := by
  induction inputs with
  | nil => intro s idx; simp [bulkGo]
  | cons inp rest ih =>
    intro s idx
    cases hv : validateCustomerInput s inp with
    | some msg =>
      have h := ih s (idx + 1)
      constructor
      · intro c hc
        simp only [bulkGo, hv] at hc
        exact h.1 c hc
      · intro hu
        simp only [bulkGo, hv]
        exact h.2 hu
    | none =>
      have hfresh := validate_none_fresh s inp hv
      have h := ih (applyCreateCustomer s inp).2 (idx + 1)
      constructor
      · intro c hc
        simp only [bulkGo, hv, List.mem_cons] at hc
        rcases hc with hc | hc
        · subst hc
          simpa [applyCreateCustomer] using hfresh
        · have h2 := h.1 c hc
          rw [storeEmails_applyCreate] at h2
          intro hm
          exact h2 (List.mem_append_left _ hm)
      · intro hu
        simp only [bulkGo, hv]
        apply h.2
        unfold emailsUnique
        rw [storeEmails_applyCreate]
        exact nodup_snoc _ _ hu hfresh

lemma bulkGo_dup_err (inputs : List CreateCustomerInput) :
    ∀ (s : Store) (idx i : Nat) (h : i < inputs.length),
    emailFormatOk ((inputs.get ⟨i, h⟩).email) = true →
    (inputs.get ⟨i, h⟩).email ∈ storeEmails s →
    ∃ err ∈ ((bulkGo s idx inputs).1).errors, err.index = idx + i ∧
      err.message = "Email " ++ sq ++ (inputs.get ⟨i, h⟩).email ++ sq ++ " already exists" := by
  induction inputs with
  | nil => intro s idx i h; exact absurd h (by simp)
  | cons inp rest ih =>
    intro s idx i h hf hm
    cases i with
    | zero =>
      have hve := validate_email_dup s inp.email hf hm
      have hvc : validateCustomerInput s inp
          = some "A customer with this email already exists." := by
        simp [validateCustomerInput, hve]
      simp only [bulkGo, hvc]
      exact ⟨_, List.mem_cons_self _ _, by simp, by simp [describe_bulk_dup]⟩
    | succ j =>
      have hlt : j < rest.length := by
        simpa [Nat.succ_lt_succ_iff] using h
      cases hv : validateCustomerInput s inp with
      | some msg =>
        obtain ⟨err, hmem, hidx, hmsg⟩ := ih s (idx + 1) j hlt hf hm
        refine ⟨err, ?_, by omega, hmsg⟩
        simp only [bulkGo, hv]
        exact List.mem_cons_of_mem _ hmem
      | none =>
        have hm2 : (rest.get ⟨j, hlt⟩).email ∈ storeEmails (applyCreateCustomer s inp).2 := by
          rw [storeEmails_applyCreate]
          exact List.mem_append_left _ hm
        obtain ⟨err, hmem, hidx, hmsg⟩ := ih (applyCreateCustomer s inp).2 (idx + 1) j hlt hf hm2
        refine ⟨err, ?_, by omega, hmsg⟩
        simp only [bulkGo, hv]
        exact hmem

lemma storeEmails_create_product (s : Store) (pinp : CreateProductInput) :
    storeEmails (create_product s pinp).2 = storeEmails s := by
  unfold create_product
  cases validate_price pinp.price with
  | some m => simp [storeEmails]
  | none =>
    cases validate_stock pinp.stock with
    | some m => simp [storeEmails]
    | none => simp [storeEmails]

lemma storeEmails_create_order (s : Store) (cid : Nat) (pids : List Nat)
    (d : Option Nat) :
    storeEmails (create_order s cid pids d).2 = storeEmails s := by
  unfold create_order
  cases s.customers.find? (fun c2 => c2.id = cid) with
  | none => simp [storeEmails]
  | some c =>
    by_cases h1 : pids = []
    · simp [h1, storeEmails]
    · by_cases h2 : invalidProductIds s pids = []
      · simp [h1, h2, storeEmails]
      · simp [h1, h2, storeEmails]

lemma storeEmails_update_low_stock (s : Store) :
    storeEmails (update_low_stock_products s).2 = storeEmails s := by
  simp [update_low_stock_products, storeEmails]

/-- C8: an email already present in the store is rejected with the
duplicate-email message and creates no record, by `createCustomer` and —
for each position carrying such an email — by `bulkCreateCustomers`
(`emailFormatOk` holds for every email a reachable store contains); and
starting from a store with unique emails, every mutation (including bulk
batches with internal duplicates) preserves global uniqueness of
`Customer.email`. -/
theorem customer_email_uniqueness (s : Store) (inp : CreateCustomerInput)
    (inputs : List CreateCustomerInput) (pinp : CreateProductInput)
    (cid : Nat) (pids : List Nat) (d : Option Nat)
    (hu : emailsUnique s) :
    (inp.email ∈ storeEmails s →
      ((create_customer s inp).1).success = false ∧
      ((create_customer s inp).1).message = "A customer with this email already exists." ∧
      (create_customer s inp).2 = s) ∧
    (∀ c ∈ ((bulk_create_customers s inputs).1).customers, c.email ∉ storeEmails s) ∧
    (∀ i, ∀ (h : i < inputs.length),
      emailFormatOk ((inputs.get ⟨i, h⟩).email) = true →
      (inputs.get ⟨i, h⟩).email ∈ storeEmails s →
      ∃ err ∈ ((bulk_create_customers s inputs).1).errors, err.index = i ∧
        err.message = "Email " ++ sq ++ (inputs.get ⟨i, h⟩).email ++ sq ++ " already exists") ∧
    emailsUnique (create_customer s inp).2 ∧
    emailsUnique (bulk_create_customers s inputs).2 ∧
    emailsUnique (create_product s pinp).2 ∧
    emailsUnique (create_order s cid pids d).2 ∧
    emailsUnique (update_low_stock_products s).2 := by
  refine ⟨?_, ?_, ?_, ?_, ?_, ?_, ?_, ?_⟩
  · intro hm
    obtain ⟨m, hve, hcase⟩ := validate_email_present s inp.email hm
    have hvc : validateCustomerInput s inp = some m := by
      simp [validateCustomerInput, hve]
    exact ⟨by simp [create_customer, hvc],
      by simp [create_customer, hvc, describe_email_msgs m hcase],
      by simp [create_customer, hvc]⟩
  · exact (bulkGo_unique inputs s 0).1
  · intro i h hf hm
    obtain ⟨err, hmem, hidx, hmsg⟩ := bulkGo_dup_err inputs s 0 i h hf hm
    exact ⟨err, hmem, by omega, hmsg⟩
  · cases hv : validateCustomerInput s inp with
    | some m => simpa [create_customer, hv] using hu
    | none =>
      have hfresh := validate_none_fresh s inp hv
      unfold emailsUnique
      simp only [create_customer, hv]
      rw [storeEmails_applyCreate]
      exact nodup_snoc _ _ hu hfresh
  · exact (bulkGo_unique inputs s 0).2 hu
  · unfold emailsUnique
    rw [storeEmails_create_product]
    exact hu
  · unfold emailsUnique
    rw [storeEmails_create_order]
    exact hu
  · unfold emailsUnique
    rw [storeEmails_update_low_stock]
    exact hu

/-- C8, witness: re-submitting the already-present email
`alice@example.com`, alone and in a bulk batch. -/
theorem customer_email_uniqueness_w :
    ((create_customer baseStore { name := "Bob", email := "alice@example.com" }).1).message
      = "A customer with this email already exists." ∧
    emailsUnique (create_customer baseStore
      { name := "Bob", email := "alice@example.com" }).2 ∧
    emailsUnique (bulk_create_customers baseStore
      [{ name := "Bob", email := "alice@example.com" }]).2 := by
  have h := customer_email_uniqueness baseStore
    { name := "Bob", email := "alice@example.com" }
    [{ name := "Bob", email := "alice@example.com" }]
    { name := "Desk", price := 1 } 1 [1] none (by decide)
  exact ⟨(h.1 (by decide)).2.1, h.2.2.2.1, h.2.2.2.2.1⟩

end Crm
